import Mathlib

/-!
Verification of the TLS 1.2 cryptographic core exercised by the repository's
comparison scripts: ChaCha20-Poly1305 record sealing with the nonce and AAD
constructions of `scripts/verify_chacha_encryption.py`, the TLS 1.2 PRF paths
of `scripts/compare_transcript_hash.py` (`calc_key` versus `prf12`), and the
EMSA-PSS encoding exercised by `tmp_pss.py`.

Bytes are modelled as `List Nat` with values below 256; 32-bit machine
arithmetic is modelled as `Nat` arithmetic reduced modulo `2 ^ 32`.
The AEAD primitive, the PRF and the PSS encoder live in the `tlslite-ng`
library, which the scripts import but which is not part of this repository's
sources; those definitions are modelled from the specification (RFC-faithful),
while the nonce/AAD/record-level constructions are translated directly from
the scripts.
-/

namespace TLS

abbrev Bytes := List Nat

/-- 32-bit left rotation, modelled as Nat arithmetic modulo `2 ^ 32`. -/
def rotl32 (x n : Nat) : Nat :=
  ((x <<< n) ||| (x >>> (32 - n))) % 4294967296

/-- Byte-wise XOR of two byte strings, truncated to the shorter one
(Python `bytes(a ^ b for a, b in zip(x, y))`). -/
def xorBytes (a b : Bytes) : Bytes :=
  (a.zip b).map (fun p => p.1 ^^^ p.2)

/-- Little-endian serialization of a 32-bit word into four bytes. -/
def le32ToBytes (w : Nat) : Bytes :=
  [w % 256, w / 256 % 256, w / 65536 % 256, w / 16777216 % 256]

/-- Groups of four bytes read as little-endian 32-bit words (a trailing
partial group is dropped; inputs here always have length a multiple of 4). -/
def leWords : Bytes → List Nat
  | a :: b :: c :: d :: rest => (a + 256 * b + 65536 * c + 16777216 * d) :: leWords rest
  | _ => []

/-- Little-endian serialization of `n` into exactly `k` bytes. -/
def natToLeBytes : Nat → Nat → Bytes
  | 0, _ => []
  | k + 1, n => n % 256 :: natToLeBytes k (n / 256)

/-- Modelled from the spec: the ChaCha20 quarter round of the AEAD record
cipher (§4.3); the ChaCha20 implementation backing
`tlslite.utils.python_chacha20_poly1305` is not under `src/`. The state is
sixteen 32-bit words; words at indices `a b c d` are mixed per RFC 7539. -/
def quarterRound (st : List Nat) (a b c d : Nat) : List Nat :=
  let sa := (st.getD a 0 + st.getD b 0) % 4294967296
  let sd := rotl32 (Nat.xor (st.getD d 0) sa) 16
  let sc := (st.getD c 0 + sd) % 4294967296
  let sb := rotl32 (Nat.xor (st.getD b 0) sc) 12
  let sa2 := (sa + sb) % 4294967296
  let sd2 := rotl32 (Nat.xor sd sa2) 8
  let sc2 := (sc + sd2) % 4294967296
  let sb2 := rotl32 (Nat.xor sb sc2) 7
  (((st.set a sa2).set b sb2).set c sc2).set d sd2

/-- One ChaCha20 double round: four column rounds then four diagonal rounds. -/
def doubleRound (st : List Nat) : List Nat :=
  let s1 := quarterRound st 0 4 8 12
  let s2 := quarterRound s1 1 5 9 13
  let s3 := quarterRound s2 2 6 10 14
  let s4 := quarterRound s3 3 7 11 15
  let s5 := quarterRound s4 0 5 10 15
  let s6 := quarterRound s5 1 6 11 12
  let s7 := quarterRound s6 2 7 8 13
  quarterRound s7 3 4 9 14

/-- Initial ChaCha20 state: the four ASCII constants, eight key words, the
block counter, and three nonce words. -/
def chachaInit (key nonce : Bytes) (counter : Nat) : List Nat :=
  [1634760805, 857760878, 2036477234, 1797285236] ++
    leWords key ++ [counter % 4294967296] ++ leWords nonce

/-- Modelled from the spec: the ChaCha20 block function (one 64-byte
keystream block) of the AEAD record cipher (§4.3); the implementation in
`tlslite-ng` is not under `src/`. Ten double rounds, then word-wise addition
of the initial state, serialized little-endian. -/
def chachaBlock (key nonce : Bytes) (counter : Nat) : Bytes :=
  let init := chachaInit key nonce counter
  let st := Nat.repeat doubleRound 10 init
  ((st.zip init).map (fun p => le32ToBytes ((p.1 + p.2) % 4294967296))).flatten

/-- Keystream of `n` consecutive ChaCha20 blocks starting at `counter`. -/
def keystream (key nonce : Bytes) (counter : Nat) : Nat → Bytes
  | 0 => []
  | n + 1 => chachaBlock key nonce counter ++ keystream key nonce (counter + 1) n

/-- Modelled from the spec: ChaCha20 encryption (§4.3) — XOR of the input
with the keystream generated from block `counter` upward; the implementation
in `tlslite-ng` is not under `src/`. -/
def chachaEncrypt (key nonce : Bytes) (counter : Nat) (pt : Bytes) : Bytes :=
  xorBytes pt (keystream key nonce counter ((pt.length + 63) / 64))

/-- The Poly1305 prime `2 ^ 130 - 5`. -/
def poly1305Prime : Nat := 1361129467683753853853498429727072845819

/-- Clamping of the Poly1305 `r` key half per RFC 7539 §2.5. -/
def clampR (r : Nat) : Nat := r &&& 0x0ffffffc0ffffffc0ffffffc0fffffff

/-- Little-endian bytes to natural number. -/
def leBytesToNat : Bytes → Nat
  | [] => 0
  | b :: rest => b + 256 * leBytesToNat rest

/-- Poly1305 accumulator loop: the message is consumed byte by byte; every
full 16-byte block (and the final partial block) gets the `0x01` pad bit
appended at its byte length, is added to the accumulator, and the sum is
multiplied by `r` modulo `2 ^ 130 - 5`. `blk` is the little-endian value of
the bytes of the current block read so far and `cnt` their count. -/
def poly1305Go (r : Nat) : Bytes → Nat → Nat → Nat → Nat
  | [], acc, blk, cnt =>
    if cnt = 0 then acc
    else ((acc + blk + 256 ^ cnt) * r) % poly1305Prime
  | b :: rest, acc, blk, cnt =>
    if cnt = 15 then
      poly1305Go r rest (((acc + blk + b * 256 ^ 15 + 256 ^ 16) * r) % poly1305Prime) 0 0
    else
      poly1305Go r rest acc (blk + b * 256 ^ cnt) (cnt + 1)

/-- Modelled from the spec: the Poly1305 one-time authenticator (§4.3, the
16-byte tag); the implementation in `tlslite-ng` is not under `src/`. The
32-byte key splits into clamped `r` and `s`; the tag is
`(accumulator + s) mod 2 ^ 128`, serialized little-endian. -/
def poly1305 (key msg : Bytes) : Bytes :=
  let r := clampR (leBytesToNat (key.take 16))
  let s := leBytesToNat (key.drop 16)
  natToLeBytes 16 ((poly1305Go r msg 0 0 0 + s) % 340282366920938463463374607431768211456)

/-- Zero padding of a byte string up to the next 16-byte boundary. -/
def pad16 (l : Bytes) : Bytes := l ++ List.replicate ((16 - l.length % 16) % 16) 0

/-- The Poly1305 input of the AEAD construction: padded AAD, padded
ciphertext, then the two 8-byte little-endian lengths. -/
def macData (aad ct : Bytes) : Bytes :=
  pad16 aad ++ pad16 ct ++ natToLeBytes 8 aad.length ++ natToLeBytes 8 ct.length

/-- Modelled from the spec: `seal` (here `seal'`, since `seal` is reserved) of the AEAD record cipher (§4.3) at the
level the scripts call it (`CHACHA20_POLY1305.seal(nonce, plaintext, aad)`);
`tlslite.utils.python_chacha20_poly1305` is not under `src/`. The Poly1305
key is the first half of keystream block 0, the ciphertext starts at block 1,
and the 16-byte tag is appended. -/
def seal' (key nonce pt aad : Bytes) : Bytes :=
  let polyKey := (chachaBlock key nonce 0).take 32
  let ct := chachaEncrypt key nonce 1 pt
  ct ++ poly1305 polyKey (macData aad ct)

/-- Modelled from the spec: `open` of the AEAD record cipher (§4.3);
`tlslite.utils.python_chacha20_poly1305` is not under `src/`. Fails
(`none`) when the ciphertext is shorter than the 16-byte tag or when the
recomputed tag differs from the received one; otherwise decrypts. -/
def open' (key nonce ct aad : Bytes) : Option Bytes :=
  if ct.length < 16 then none
  else
    let body := ct.take (ct.length - 16)
    let tag := ct.drop (ct.length - 16)
    let polyKey := (chachaBlock key nonce 0).take 32
    if poly1305 polyKey (macData aad body) = tag then
      some (chachaEncrypt key nonce 1 body)
    else none

/-! ## The record-level constructions of `scripts/verify_chacha_encryption.py` -/

/-- `padded_seq = bytes(12 - len(seq_num)) + seq_num` — the sequence number
zero-padded on the left to 12 bytes. -/
def padded_seq (seq : Bytes) : Bytes := List.replicate (12 - seq.length) 0 ++ seq

/-- `nonce = bytes(a ^ b for a, b in zip(client_iv, padded_seq))` — the
per-record nonce: fixed IV XOR left-zero-padded sequence number. -/
def recordNonce (iv seq : Bytes) : Bytes := xorBytes iv (padded_seq seq)

/-- Python `bytes([...])`: succeeds only when every element fits in a byte. -/
def mkPyBytes (l : List Nat) : Option Bytes :=
  if l.all (fun b => b < 256) then some l else none

/-- `aad = seq_num + bytes([content_type, version[0], version[1],
plaintext_length >> 8, plaintext_length & 0xff])` — the TLS 1.2 AAD:
sequence number, content type, version, two-byte length. -/
def recordAAD (seq : Bytes) (contentType : Nat) (version : Nat × Nat) (len : Nat) :
    Option Bytes :=
  (mkPyBytes [contentType, version.1, version.2, len >>> 8, len &&& 255]).map
    (fun t => seq ++ t)

/-! ## Concrete values of `scripts/verify_chacha_encryption.py` -/

def client_key : Bytes :=
  [0xec, 0x05, 0x07, 0x28, 0x43, 0xde, 0x41, 0x45, 0x9c, 0x43, 0x5f, 0xf2,
   0x41, 0xb3, 0x67, 0x04, 0x59, 0x50, 0xd2, 0x10, 0xa1, 0xd3, 0x2d, 0x74,
   0xa1, 0x08, 0x9d, 0x86, 0x2c, 0x99, 0x85, 0xa8]

def client_iv : Bytes :=
  [0x3d, 0xfa, 0x01, 0x41, 0xec, 0x76, 0x9e, 0x5b, 0x7f, 0xef, 0x64, 0xc4]

def seq_num : Bytes := [0, 0, 0, 0, 0, 0, 0, 0]

def kat_plaintext : Bytes :=
  [0x14, 0x00, 0x00, 0x0c, 0x31, 0xbb, 0xf9, 0xd6, 0x68, 0x0e, 0x90, 0x91,
   0x20, 0xcd, 0xbf, 0xd2]

def dart_ciphertext : Bytes :=
  [0x2c, 0x71, 0x7d, 0x02, 0xff, 0x6f, 0xd0, 0x5b, 0xd6, 0x9c, 0x89, 0x22,
   0x68, 0xff, 0x8b, 0x7b, 0xa2, 0x89, 0x9e, 0x52, 0x6a, 0x99, 0x6c, 0x7e,
   0x79, 0x1e, 0x0f, 0xe1, 0x1b, 0x56, 0xd8, 0x8b]

/-- The AAD value the script builds for the known-answer record. -/
def kat_aad : Bytes := seq_num ++ [22, 3, 3, 0, 16]

end TLS

namespace TLS

/-! ## Helper lemmas -/

/-- XOR with a zero byte string of at least the same length is the identity. -/
theorem xorBytes_replicate_zero (l : Bytes) (n : Nat) (h : l.length ≤ n) :
    xorBytes l (List.replicate n 0) = l := by
  induction l generalizing n with
  | nil => simp [xorBytes]
  | cons b rest ih =>
    cases n with
    | zero => simp at h
    | succ m =>
      simp only [List.replicate_succ, xorBytes, List.zip_cons_cons, List.map_cons,
        Nat.xor_zero]
      have h2 : rest.length ≤ m := by simpa using h
      have h3 := ih m h2
      simp only [xorBytes] at h3
      rw [h3]

/-- The high byte of the two-byte length is below 256 iff the length fits. -/
theorem shiftRight8_lt (len : Nat) (h : len < 65536) : len >>> 8 < 256 := by
  rw [Nat.shiftRight_eq_div_pow]
  omega

/-- The low byte of the two-byte length always fits. -/
theorem land255_lt (len : Nat) : len &&& 255 < 256 :=
  Nat.lt_succ_of_le Nat.and_le_right

/-- `recordAAD` on an in-range length yields the 13-byte AAD. -/
theorem recordAAD_eq_some (seq : Bytes) (ct len : Nat) (hct : ct < 256)
    (hlen : len < 65536) :
    recordAAD seq ct (3, 3) len = some (seq ++ [ct, 3, 3, len >>> 8, len &&& 255]) := by
  have h1 := shiftRight8_lt len hlen
  have h2 := land255_lt len
  simp [recordAAD, mkPyBytes, hct, h1, h2]

/-- `recordAAD` on an out-of-range length fails: the high length byte does
not fit in a byte, so Python's `bytes([...])` raises. -/
theorem recordAAD_eq_none (seq : Bytes) (ct len : Nat) (hlen : 65536 ≤ len) :
    recordAAD seq ct (3, 3) len = none := by
  have h1 : ¬ len >>> 8 < 256 := by
    rw [Nat.shiftRight_eq_div_pow]
    omega
  simp [recordAAD, mkPyBytes, h1]

end TLS

namespace TLS

set_option maxRecDepth 100000

/-! ## Claim theorems: ChaCha20-Poly1305 record protection -/

/-- C1: sealing with the script's construction — nonce = fixed IV XOR
left-zero-padded 12-byte sequence number, AAD = 8-byte sequence number,
content type 22, version (3,3), 2-byte plaintext length — on the known-answer
key, fixed IV, sequence number 0 and plaintext produces exactly the 32-byte
ciphertext-plus-tag `2c717d02…d88b`. -/
theorem chacha_kat_seal :
    recordAAD seq_num 22 (3, 3) kat_plaintext.length = some kat_aad ∧
    seal' client_key (recordNonce client_iv seq_num) kat_plaintext kat_aad =
      dart_ciphertext ∧
    dart_ciphertext.length = 32 := by
  refine ⟨by decide, by decide, by decide⟩

/-- C2 counterexample: contrary to the claim, sealing with the naive
"no-XOR" nonce (the fixed IV used directly) produces the very same
known-answer ciphertext, because at sequence number 0 the XOR is the
identity. -/
theorem chacha_noxor_matches :
    seal' client_key client_iv kat_plaintext kat_aad = dart_ciphertext := by
  decide

/-- C2 (amended): at sequence number 0 the "no-XOR" nonce seal matches the
known-answer ciphertext (the XOR with an all-zero padded sequence number is
the identity), while the "no-seqnum" 5-byte AAD seal produces a different
ciphertext. -/
theorem chacha_alt_constructions :
    seal' client_key client_iv kat_plaintext kat_aad = dart_ciphertext ∧
    seal' client_key (recordNonce client_iv seq_num) kat_plaintext
      [22, 3, 3, 0, 16] ≠ dart_ciphertext := by
  refine ⟨by decide, by decide⟩

/-- C3: for every 12-byte fixed IV, with the all-zero 8-byte sequence number
the left-zero-padded sequence is 12 zero bytes, the computed nonce is
byte-identical to the fixed IV, and sealing with the fixed IV directly as
nonce gives exactly the same ciphertext as sealing with the XOR-derived
nonce, all other arguments equal. -/
theorem nonce_zero_seq_eq_iv (iv key pt aad : Bytes) (h : iv.length = 12) :
    padded_seq seq_num = List.replicate 12 0 ∧
    recordNonce iv seq_num = iv ∧
    seal' key iv pt aad = seal' key (recordNonce iv seq_num) pt aad := by
  have hps : padded_seq seq_num = List.replicate 12 0 := by decide
  have hn : recordNonce iv seq_num = iv := by
    rw [recordNonce, hps]
    exact xorBytes_replicate_zero iv 12 (le_of_eq h)
  exact ⟨hps, hn, by rw [hn]⟩

/-- C3 witness: the general theorem applied to the script's concrete fixed
IV, key, plaintext and AAD. -/
theorem nonce_zero_seq_eq_iv_witness :
    padded_seq seq_num = List.replicate 12 0 ∧
    recordNonce client_iv seq_num = client_iv ∧
    seal' client_key client_iv kat_plaintext kat_aad =
      seal' client_key (recordNonce client_iv seq_num) kat_plaintext kat_aad :=
  nonce_zero_seq_eq_iv client_iv client_key kat_plaintext kat_aad (by decide)

/-- C4: for every 8-byte sequence number and every fixed IV, the padded
sequence used for the nonce is exactly 4 zero bytes prepended on the left
(total 12 bytes), never right padding, and the per-record nonce is the fixed
IV XORed byte-wise with that left-padded sequence. -/
theorem padded_seq_left_pad (iv seq : Bytes) (h : seq.length = 8) :
    padded_seq seq = List.replicate 4 0 ++ seq ∧ (padded_seq seq).length = 12 ∧
    recordNonce iv seq = xorBytes iv (List.replicate 4 0 ++ seq) := by
  have h4 : padded_seq seq = List.replicate 4 0 ++ seq := by rw [padded_seq, h]
  refine ⟨h4, by simp [padded_seq, h], by rw [recordNonce, h4]⟩

/-- C4 witness: the padding of a concrete non-degenerate 8-byte sequence
number, with the script's fixed IV. -/
theorem padded_seq_left_pad_witness :
    padded_seq [1, 2, 3, 4, 5, 6, 7, 8] = List.replicate 4 0 ++ [1, 2, 3, 4, 5, 6, 7, 8] ∧
    (padded_seq [1, 2, 3, 4, 5, 6, 7, 8]).length = 12 ∧
    recordNonce client_iv [1, 2, 3, 4, 5, 6, 7, 8] =
      xorBytes client_iv (List.replicate 4 0 ++ [1, 2, 3, 4, 5, 6, 7, 8]) :=
  padded_seq_left_pad client_iv [1, 2, 3, 4, 5, 6, 7, 8] (by decide)

/-- C5: for every 8-byte sequence number, in-range content type and
plaintext length below 65536, the AAD is exactly the 13 bytes: 8-byte
sequence number, content type, version (3,3), 2-byte big-endian length. -/
theorem recordAAD_thirteen_bytes (seq : Bytes) (ct len : Nat) (h8 : seq.length = 8)
    (hct : ct < 256) (hlen : len < 65536) :
    recordAAD seq ct (3, 3) len = some (seq ++ [ct, 3, 3, len >>> 8, len &&& 255]) ∧
    (seq ++ [ct, 3, 3, len >>> 8, len &&& 255]).length = 13 := by
  refine ⟨recordAAD_eq_some seq ct len hct hlen, ?_⟩
  simp [h8]

/-- C5 witness: the known-answer record's AAD. -/
theorem recordAAD_thirteen_bytes_witness :
    recordAAD seq_num 22 (3, 3) 16 = some (seq_num ++ [22, 3, 3, 16 >>> 8, 16 &&& 255]) ∧
    (seq_num ++ [22, 3, 3, 16 >>> 8, 16 &&& 255]).length = 13 :=
  recordAAD_thirteen_bytes seq_num 22 16 (by decide) (by decide) (by decide)

/-- C10: the AAD construction is total exactly for plaintext lengths below
65536: below that bound it yields the 13-byte AAD, at or above it Python's
`bytes([...])` raises because the high length byte `len >>> 8` exceeds 255 —
no truncated AAD is ever produced silently. -/
theorem recordAAD_domain (seq : Bytes) (ct len : Nat) (h8 : seq.length = 8)
    (hct : ct < 256) :
    recordAAD seq ct (3, 3) len =
      (if len < 65536 then some (seq ++ [ct, 3, 3, len >>> 8, len &&& 255]) else none) ∧
    (seq ++ [ct, 3, 3, len >>> 8, len &&& 255]).length = 13 := by
  constructor
  · by_cases hlen : len < 65536
    · rw [if_pos hlen]
      exact recordAAD_eq_some seq ct len hct hlen
    · rw [if_neg hlen]
      exact recordAAD_eq_none seq ct len (by omega)
  · simp [h8]

/-- C10 witness: the theorem applied at an in-range length (16) and at an
out-of-range length (65536), on the script's sequence number and content
type. -/
theorem recordAAD_domain_witness :
    (recordAAD seq_num 22 (3, 3) 16 =
      (if 16 < 65536 then some (seq_num ++ [22, 3, 3, 16 >>> 8, 16 &&& 255]) else none) ∧
     (seq_num ++ [22, 3, 3, 16 >>> 8, 16 &&& 255]).length = 13) ∧
    (recordAAD seq_num 22 (3, 3) 65536 =
      (if 65536 < 65536 then
        some (seq_num ++ [22, 3, 3, 65536 >>> 8, 65536 &&& 255]) else none) ∧
     (seq_num ++ [22, 3, 3, 65536 >>> 8, 65536 &&& 255]).length = 13) :=
  ⟨recordAAD_domain seq_num 22 16 (by decide) (by decide),
   recordAAD_domain seq_num 22 65536 (by decide) (by decide)⟩

end TLS

namespace TLS

/-! ## Length lemmas for the AEAD round trip -/

/-- `leWords` produces one word per four input bytes. -/
theorem leWords_length (l : Bytes) : (leWords l).length = l.length / 4 := by
  match l with
  | [] => rfl
  | [a] => simp [leWords]
  | [a, b] => simp [leWords]
  | [a, b, c] => simp [leWords]
  | a :: b :: c :: d :: rest =>
    have ih := leWords_length rest
    simp only [leWords, List.length_cons, ih]
    omega

/-- A well-formed ChaCha20 initial state has sixteen words. -/
theorem chachaInit_length (key nonce : Bytes) (c : Nat)
    (hk : key.length = 32) (hn : nonce.length = 12) :
    (chachaInit key nonce c).length = 16 := by
  simp [chachaInit, leWords_length, hk, hn]

/-- A quarter round preserves the state length. -/
theorem quarterRound_length (st : List Nat) (a b c d : Nat) :
    (quarterRound st a b c d).length = st.length := by
  simp [quarterRound]

/-- A double round preserves the state length. -/
theorem doubleRound_length (st : List Nat) : (doubleRound st).length = st.length := by
  simp [doubleRound, quarterRound_length]

/-- Iterated double rounds preserve the state length. -/
theorem repeat_doubleRound_length (n : Nat) (st : List Nat) :
    (Nat.repeat doubleRound n st).length = st.length := by
  induction n with
  | zero => rfl
  | succ m ih => rw [Nat.repeat, doubleRound_length, ih]

/-- A serialized word is four bytes. -/
theorem le32ToBytes_length (w : Nat) : (le32ToBytes w).length = 4 := rfl

/-- Serializing a list of word pairs yields four bytes per pair. -/
theorem flatten_map_le32_length (l : List (Nat × Nat)) :
    ((l.map (fun p => le32ToBytes ((p.1 + p.2) % 4294967296))).flatten).length
      = 4 * l.length := by
  induction l with
  | nil => rfl
  | cons x xs ih =>
    simp only [List.map_cons, List.flatten_cons, List.length_append, ih,
      List.length_cons, le32ToBytes_length]
    omega

/-- A ChaCha20 block of a 32-byte key and 12-byte nonce is 64 bytes. -/
theorem chachaBlock_length (key nonce : Bytes) (c : Nat)
    (hk : key.length = 32) (hn : nonce.length = 12) :
    (chachaBlock key nonce c).length = 64 := by
  have h16 : (chachaInit key nonce c).length = 16 := chachaInit_length key nonce c hk hn
  simp only [chachaBlock, flatten_map_le32_length, List.length_zip,
    repeat_doubleRound_length, h16]
  omega

/-- The keystream of `n` blocks is `64 * n` bytes. -/
theorem keystream_length (key nonce : Bytes) (c n : Nat)
    (hk : key.length = 32) (hn : nonce.length = 12) :
    (keystream key nonce c n).length = 64 * n := by
  induction n generalizing c with
  | zero => rfl
  | succ m ih =>
    simp only [keystream, List.length_append, chachaBlock_length key nonce c hk hn, ih]
    omega

/-- XOR truncates to the shorter operand. -/
theorem xorBytes_length (a b : Bytes) : (xorBytes a b).length = min a.length b.length := by
  simp [xorBytes]

/-- ChaCha20 encryption preserves the input length. -/
theorem chachaEncrypt_length (key nonce : Bytes) (c : Nat) (pt : Bytes)
    (hk : key.length = 32) (hn : nonce.length = 12) :
    (chachaEncrypt key nonce c pt).length = pt.length := by
  rw [chachaEncrypt, xorBytes_length, keystream_length key nonce c _ hk hn]
  omega

/-- XOR with the same (sufficiently long) keystream twice is the identity. -/
theorem xorBytes_cancel (a : Bytes) : ∀ b : Bytes, a.length ≤ b.length →
    xorBytes (xorBytes a b) b = a := by
  induction a with
  | nil => intro b _; cases b <;> rfl
  | cons x xs ih =>
    intro b hb
    cases b with
    | nil => simp at hb
    | cons y ys =>
      simp only [xorBytes, List.zip_cons_cons, List.map_cons, Nat.xor_cancel_right]
      have h2 := ih ys (by simpa using hb)
      simp only [xorBytes] at h2
      rw [h2]

/-- Decrypting an encryption starting at the same block counter restores the
plaintext. -/
theorem chachaEncrypt_cancel (key nonce pt : Bytes)
    (hk : key.length = 32) (hn : nonce.length = 12) :
    chachaEncrypt key nonce 1 (chachaEncrypt key nonce 1 pt) = pt := by
  have hks : (keystream key nonce 1 ((pt.length + 63) / 64)).length
      = 64 * ((pt.length + 63) / 64) :=
    keystream_length key nonce 1 _ hk hn
  have hlen : (chachaEncrypt key nonce 1 pt).length = pt.length :=
    chachaEncrypt_length key nonce 1 pt hk hn
  simp only [chachaEncrypt] at hlen ⊢
  rw [hlen]
  exact xorBytes_cancel pt _ (by rw [hks]; omega)

/-- `natToLeBytes k` always yields `k` bytes. -/
theorem natToLeBytes_length (k : Nat) : ∀ n : Nat, (natToLeBytes k n).length = k := by
  induction k with
  | zero => intro n; rfl
  | succ m ih => intro n; simp [natToLeBytes, ih]

/-- A Poly1305 tag is 16 bytes. -/
theorem poly1305_length (k m : Bytes) : (poly1305 k m).length = 16 := by
  simp only [poly1305]
  exact natToLeBytes_length 16 _

end TLS

namespace TLS

/-- C6: opening the output of seal with the same key, nonce and AAD returns
exactly the original plaintext — `open` is a left inverse of `seal` under
identical parameters (for well-formed 32-byte keys and 12-byte nonces). -/
theorem open_seal_roundtrip (key nonce pt aad : Bytes)
    (hk : key.length = 32) (hn : nonce.length = 12) :
    open' key nonce (seal' key nonce pt aad) aad = some pt := by
  have hct : (chachaEncrypt key nonce 1 pt).length = pt.length :=
    chachaEncrypt_length key nonce 1 pt hk hn
  simp only [seal', open']
  generalize hC : chachaEncrypt key nonce 1 pt = C
  rw [hC] at hct
  generalize hT : poly1305 ((chachaBlock key nonce 0).take 32) (macData aad C) = T
  have hTlen : T.length = 16 := by rw [← hT]; exact poly1305_length _ _
  have hlen : (C ++ T).length = pt.length + 16 := by
    rw [List.length_append, hct, hTlen]
  rw [hlen, if_neg (by omega)]
  have htake : (C ++ T).take (pt.length + 16 - 16) = C := by
    rw [Nat.add_sub_cancel, ← hct, List.take_left]
  have hdrop : (C ++ T).drop (pt.length + 16 - 16) = T := by
    rw [Nat.add_sub_cancel, ← hct, List.drop_left]
  rw [htake, hdrop, hT, if_pos rfl, ← hC]
  exact congrArg some (chachaEncrypt_cancel key nonce pt hk hn)

/-- C6 witness: the round trip at the script's concrete known-answer
key, nonce, plaintext and AAD. -/
theorem open_seal_roundtrip_witness :
    open' client_key (recordNonce client_iv seq_num)
      (seal' client_key (recordNonce client_iv seq_num) kat_plaintext kat_aad)
      kat_aad = some kat_plaintext :=
  open_seal_roundtrip client_key (recordNonce client_iv seq_num) kat_plaintext kat_aad
    (by decide) (by decide)

end TLS


namespace TLS

/-! ## TLS 1.2 PRF (SHA-256 based), for `scripts/compare_transcript_hash.py`

The PRF implementation (`tlslite.mathtls.prf12`, backed by HMAC-SHA256) and
`tlslite.mathtls.calc_key` are library code not under `src/`; they are
modelled here from the spec (§4.2): `P_hash` with `A(0) = label‖seed`,
`A(i) = HMAC(secret, A(i-1))`, block `i` = `HMAC(secret, A(i)‖label‖seed)`,
concatenated and truncated to the requested output length. -/

/-- Big-endian serialization of `n` into exactly `k` bytes. -/
def natToBeBytes (k n : Nat) : Bytes := (natToLeBytes k n).reverse
/-- 32-bit right rotation. -/
def rotr32 (x n : Nat) : Nat := ((x >>> n) ||| (x <<< (32 - n))) % 4294967296
/-- Groups of four bytes read as big-endian 32-bit words. -/
def beWords : Bytes → List Nat
  | a :: b :: c :: d :: rest => (16777216 * a + 65536 * b + 256 * c + d) :: beWords rest
  | _ => []
/-- Big-endian serialization of a 32-bit word into four bytes. -/
def be32ToBytes (w : Nat) : Bytes := [w / 16777216 % 256, w / 65536 % 256, w / 256 % 256, w % 256]
/-- The 64 SHA-256 round constants. -/
def sha256K : List Nat := [1116352408, 1899447441, 3049323471, 3921009573, 961987163, 1508970993,
   2453635748, 2870763221, 3624381080, 310598401, 607225278, 1426881987,
   1925078388, 2162078206, 2614888103, 3248222580, 3835390401, 4022224774,
   264347078, 604807628, 770255983, 1249150122, 1555081692, 1996064986,
   2554220882, 2821834349, 2952996808, 3210313671, 3336571891, 3584528711,
   113926993, 338241895, 666307205, 773529912, 1294757372, 1396182291,
   1695183700, 1986661051, 2177026350, 2456956037, 2730485921, 2820302411,
   3259730800, 3345764771, 3516065817, 3600352804, 4094571909, 275423344,
   430227734, 506948616, 659060556, 883997877, 958139571, 1322822218,
   1537002063, 1747873779, 1955562222, 2024104815, 2227730452, 2361852424,
   2428436474, 2756734187, 3204031479, 3329325298]
/-- SHA-256 `Ch` function (bitwise choice; `^^^ 4294967295` is 32-bit complement). -/
def sha256Ch (e f g : Nat) : Nat := (e &&& f) ^^^ ((e ^^^ 4294967295) &&& g)
/-- SHA-256 `Maj` function (bitwise majority). -/
def sha256Maj (a b c : Nat) : Nat := (a &&& b) ^^^ (a &&& c) ^^^ (b &&& c)
/-- SHA-256 Σ₀. -/
def bigSigma0 (x : Nat) : Nat := rotr32 x 2 ^^^ rotr32 x 13 ^^^ rotr32 x 22
/-- SHA-256 Σ₁. -/
def bigSigma1 (x : Nat) : Nat := rotr32 x 6 ^^^ rotr32 x 11 ^^^ rotr32 x 25
/-- SHA-256 σ₀. -/
def smallSigma0 (x : Nat) : Nat := rotr32 x 7 ^^^ rotr32 x 18 ^^^ (x >>> 3)
/-- SHA-256 σ₁. -/
def smallSigma1 (x : Nat) : Nat := rotr32 x 17 ^^^ rotr32 x 19 ^^^ (x >>> 10)
/-- Message-schedule extension: prepends `n` further words to the reversed
schedule (head = most recent word), so `W[t-2]` is at index 1, `W[t-7]` at 6,
`W[t-15]` at 14 and `W[t-16]` at 15. -/
def sha256Extend (rw : List Nat) : Nat → List Nat
  | 0 => rw
  | n + 1 =>
    sha256Extend (((smallSigma1 (rw.getD 1 0) + rw.getD 6 0 +
      smallSigma0 (rw.getD 14 0) + rw.getD 15 0) % 4294967296) :: rw) n
/-- The 64-word SHA-256 message schedule of one 64-byte block. -/
def sha256Schedule (blk : Bytes) : List Nat := (sha256Extend (beWords blk).reverse 48).reverse
/-- The eight 32-bit working variables of SHA-256. -/
abbrev Sha2State := Nat × Nat × Nat × Nat × Nat × Nat × Nat × Nat
/-- One SHA-256 compression round with round constant and schedule word `kw`. -/
def sha256Round (st : Sha2State) (kw : Nat × Nat) : Sha2State :=
  let (a, b, c, d, e, f, g, h) := st
  let t1 := (h + bigSigma1 e + sha256Ch e f g + kw.1 + kw.2) % 4294967296
  let t2 := (bigSigma0 a + sha256Maj a b c) % 4294967296
  ((t1 + t2) % 4294967296, a, b, c, (d + t1) % 4294967296, e, f, g)
/-- The SHA-256 initial hash value. -/
def sha256InitH : Sha2State :=
  (1779033703, 3144134277, 1013904242, 2773480762, 1359893119, 2600822924, 528734635, 1541459225)
/-- Word-wise addition of two states modulo `2 ^ 32`. -/
def sha2AddState (s t : Sha2State) : Sha2State :=
  ((s.1 + t.1) % 4294967296, (s.2.1 + t.2.1) % 4294967296, (s.2.2.1 + t.2.2.1) % 4294967296,
   (s.2.2.2.1 + t.2.2.2.1) % 4294967296, (s.2.2.2.2.1 + t.2.2.2.2.1) % 4294967296,
   (s.2.2.2.2.2.1 + t.2.2.2.2.2.1) % 4294967296, (s.2.2.2.2.2.2.1 + t.2.2.2.2.2.2.1) % 4294967296,
   (s.2.2.2.2.2.2.2 + t.2.2.2.2.2.2.2) % 4294967296)
/-- SHA-256 compression of one 64-byte block into the running state. -/
def sha256Compress (st : Sha2State) (blk : Bytes) : Sha2State :=
  sha2AddState st (List.foldl sha256Round st (sha256K.zip (sha256Schedule blk)))
/-- SHA-256 padding: `0x80`, zeros to 56 mod 64, 8-byte big-endian bit length. -/
def sha256Pad (msg : Bytes) : Bytes :=
  msg ++ 128 :: List.replicate ((64 - (msg.length + 9) % 64) % 64) 0 ++ natToBeBytes 8 (8 * msg.length)
/-- Splits a byte string into consecutive groups of `k` bytes (`fuel` bounds
the recursion; callers pass the list length). -/
def chunks : Nat → Nat → Bytes → List Bytes
  | 0, _, _ => []
  | _ + 1, _, [] => []
  | f + 1, k, l => l.take k :: chunks f k (l.drop k)
/-- Big-endian serialization of the eight state words. -/
def sha2StateBytes (s : Sha2State) : Bytes :=
  be32ToBytes s.1 ++ be32ToBytes s.2.1 ++ be32ToBytes s.2.2.1 ++ be32ToBytes s.2.2.2.1 ++
  be32ToBytes s.2.2.2.2.1 ++ be32ToBytes s.2.2.2.2.2.1 ++ be32ToBytes s.2.2.2.2.2.2.1 ++
  be32ToBytes s.2.2.2.2.2.2.2
/-- Modelled from the spec: SHA-256 (the hash algorithm the TLS 1.2 PRF uses
exclusively, §4.2); the implementation the scripts use lives in the Python
standard library / `tlslite-ng`, not under `src/`. -/
def sha256 (msg : Bytes) : Bytes :=
  let padded := sha256Pad msg
  sha2StateBytes (List.foldl sha256Compress sha256InitH (chunks padded.length 64 padded))
/-- Modelled from the spec: HMAC-SHA256 (§4.2 — the PRF's HMAC uses the
specified hash algorithm exclusively); not under `src/`. -/
def hmacSha256 (key msg : Bytes) : Bytes :=
  let k0 := if 64 < key.length then sha256 key else key
  let kp := k0 ++ List.replicate (64 - k0.length) 0
  sha256 ((kp.map (fun b => b ^^^ 92)) ++ sha256 ((kp.map (fun b => b ^^^ 54)) ++ msg))
/-- Modelled from the spec: `P_hash` (§4.2) — `A(0) = label‖seed`,
`A(i) = HMAC(secret, A(i-1))`, output block `i` = `HMAC(secret, A(i)‖label‖seed)`.
Here `a` carries the current `A` value and the argument `n` the number of
blocks still to produce. -/
def phash (secret seed a : Bytes) : Nat → Bytes
  | 0 => []
  | n + 1 =>
    let a2 := hmacSha256 secret a
    hmacSha256 secret (a2 ++ seed) ++ phash secret seed a2 n
/-- Modelled from the spec: `prf12` (§4.2) — the TLS 1.2 PRF: `P_hash`
output truncated to `outLen` bytes; `tlslite.mathtls.prf12` is not under
`src/`. -/
def prf12 (secret label seed : Bytes) (outLen : Nat) : Bytes :=
  (phash secret (label ++ seed) (label ++ seed) ((outLen + 31) / 32)).take outLen
/-- The 48-byte master secret of `scripts/compare_transcript_hash.py`
(`0d36cc66603f174aa02ac40bc0b9409c` three times). -/
def master_secret : Bytes := [13,54,204,102,96,63,23,74,160,42,196,11,192,185,64,156,13,54,204,102,96,63,23,74,160,42,196,11,192,185,64,156,13,54,204,102,96,63,23,74,160,42,196,11,192,185,64,156]
/-- The transcript digest of `scripts/compare_transcript_hash.py`. -/
def handshake_hash : Bytes := [201,170,26,87,122,220,153,95,108,234,199,52,250,73,106,105,220,195,220,38,132,7,37,7,17,1,168,39,5,20,36,33]
/-- The ASCII bytes of the label `client finished`. -/
def label_client_finished : Bytes := [99, 108, 105, 101, 110, 116, 32, 102, 105, 110, 105, 115, 104, 101, 100]

/-- Modelled from the spec: `computeVerifyData` (§4.2) — the `calc_key` path
of `scripts/compare_transcript_hash.py` with a finished-message label calls
the PRF with the label and the transcript digest as seed;
`tlslite.mathtls.calc_key` is not under `src/`. -/
def calc_key (masterSecret label digest : Bytes) (outLen : Nat) : Bytes :=
  prf12 masterSecret label digest outLen

/-- C7: on the script's master secret and transcript digest, the
`calc_key`-with-label-`client finished` path returns exactly 12 bytes and is
byte-for-byte equal to the direct `prf12` expansion — the two computation
paths of the script agree. -/
theorem calc_key_matches_prf12 :
    calc_key master_secret label_client_finished handshake_hash 12 =
      prf12 master_secret label_client_finished handshake_hash 12 ∧
    (calc_key master_secret label_client_finished handshake_hash 12).length = 12 := by
  refine ⟨rfl, by decide⟩

end TLS

namespace TLS

set_option maxRecDepth 1000000

/-! ## EMSA-PSS encoding (SHA-1), for `tmp_pss.py` -/

/-- The SHA-1 round constants by round index. -/
def sha1KC (t : Nat) : Nat :=
  if t < 20 then 1518500249 else if t < 40 then 1859775393
  else if t < 60 then 2400959708 else 3395469782
/-- The SHA-1 round function by round index: choice, parity, majority, parity. -/
def sha1F (t b c d : Nat) : Nat :=
  if t < 20 then (b &&& c) ^^^ ((b ^^^ 4294967295) &&& d)
  else if t < 40 then b ^^^ c ^^^ d
  else if t < 60 then (b &&& c) ^^^ (b &&& d) ^^^ (c &&& d)
  else b ^^^ c ^^^ d
/-- SHA-1 message-schedule extension on the reversed schedule: `W[t]` is the
1-bit left rotation of `W[t-3] ^^^ W[t-8] ^^^ W[t-14] ^^^ W[t-16]`. -/
def sha1Extend (rw : List Nat) : Nat → List Nat
  | 0 => rw
  | n + 1 =>
    sha1Extend (rotl32 (rw.getD 2 0 ^^^ rw.getD 7 0 ^^^ rw.getD 13 0 ^^^ rw.getD 15 0) 1 :: rw) n
/-- The 80-word SHA-1 message schedule of one 64-byte block. -/
def sha1Schedule (blk : Bytes) : List Nat := (sha1Extend (beWords blk).reverse 64).reverse
/-- The five 32-bit working variables of SHA-1. -/
abbrev Sha1State := Nat × Nat × Nat × Nat × Nat
/-- One SHA-1 round, carrying the round index in the first component. -/
def sha1Round (st : Nat × Sha1State) (w : Nat) : Nat × Sha1State :=
  let t := st.1
  let a := st.2.1
  let b := st.2.2.1
  let c := st.2.2.2.1
  let d := st.2.2.2.2.1
  let e := st.2.2.2.2.2
  (t + 1, ((rotl32 a 5 + sha1F t b c d + e + sha1KC t + w) % 4294967296, a, rotl32 b 30, c, d))
/-- The SHA-1 initial hash value. -/
def sha1InitH : Sha1State := (1732584193, 4023233417, 2562383102, 271733878, 3285377520)
/-- SHA-1 compression of one 64-byte block into the running state. -/
def sha1Compress (st : Sha1State) (blk : Bytes) : Sha1State :=
  let r := (List.foldl sha1Round (0, st) (sha1Schedule blk)).2
  ((st.1 + r.1) % 4294967296, (st.2.1 + r.2.1) % 4294967296, (st.2.2.1 + r.2.2.1) % 4294967296,
   (st.2.2.2.1 + r.2.2.2.1) % 4294967296, (st.2.2.2.2 + r.2.2.2.2) % 4294967296)
/-- Modelled from the spec: SHA-1, the hash of the PSS known-answer case
(§4.4); the implementation the scripts use is Python's `hashlib`, not under
`src/`. The padding scheme is the same as SHA-256's. -/
def sha1 (msg : Bytes) : Bytes :=
  let padded := sha256Pad msg
  let s := List.foldl sha1Compress sha1InitH (chunks padded.length 64 padded)
  be32ToBytes s.1 ++ be32ToBytes s.2.1 ++ be32ToBytes s.2.2.1 ++
    be32ToBytes s.2.2.2.1 ++ be32ToBytes s.2.2.2.2
/-- Modelled from the spec: the MGF1 mask generation function over SHA-1
(§4.4); `tlslite.utils.rsakey.RSAKey.MGF1` is not under `src/`. Each 4-byte
big-endian counter block is hashed with the seed and the output truncated. -/
def MGF1 (seed : Bytes) (maskLen : Nat) : Bytes :=
  (((List.range ((maskLen + 19) / 20)).map (fun c => sha1 (seed ++ natToBeBytes 4 c))).flatten).take maskLen
/-- Modelled from the spec: `EMSA_PSS_encode` (§4.4) with SHA-1 and the salt
passed explicitly (the script `tmp_pss.py` injects a fixed salt in place of
the random source); `tlslite.utils.rsakey.RSAKey.EMSA_PSS_encode` is not
under `src/`. Fails when the encoded-message length cannot hold digest,
salt and overhead; otherwise `H = SHA1(8 zero bytes ‖ mHash ‖ salt)`,
`DB = zeros ‖ 0x01 ‖ salt` masked by `MGF1(H)`, the top
`8 * emLen - emBits` bits of the first byte cleared, with `H` and the
trailer byte `0xBC` appended. -/
def EMSA_PSS_encode (mHash : Bytes) (emBits : Nat) (salt : Bytes) : Option Bytes :=
  let hLen := mHash.length
  let sLen := salt.length
  let emLen := (emBits + 7) / 8
  if emLen < hLen + sLen + 2 then none
  else
    let h := sha1 (List.replicate 8 0 ++ mHash ++ salt)
    let db := List.replicate (emLen - sLen - hLen - 2) 0 ++ [1] ++ salt
    let maskedDB := xorBytes db (MGF1 h (emLen - hLen - 1))
    let cleared :=
      match maskedDB with
      | [] => ([] : Bytes)
      | b :: rest => (b &&& (255 >>> (8 * emLen - emBits))) :: rest
    some (cleared ++ h ++ [188])
/-- The message signed in `tmp_pss.py`. -/
def pss_message : Bytes := [199, 245, 39, 15, 202, 114, 114, 95, 155, 209, 159, 81, 154, 141, 124, 202, 60, 197,
   192, 121, 2, 64, 41, 243, 186, 229, 16, 249, 176, 33, 64, 254, 35, 137, 8, 228,
   246, 193, 143, 7, 168, 156, 104, 124, 134, 132, 102, 155, 31, 29, 178, 186, 249, 37,
   26, 60, 130, 159, 172, 203, 73, 48, 132, 225, 110, 201, 226, 141, 88, 134, 128, 116,
   165, 214, 34, 22, 103, 221, 110, 82, 141, 22, 254, 44, 159, 61, 180, 207, 175, 108,
   77, 206, 140, 132, 57, 175, 56, 206, 170, 170, 156, 226, 236, 174, 123, 200, 244, 165,
   165, 94, 59, 249, 109, 249, 205, 87, 92, 79, 156, 179, 39, 149, 27, 140, 223, 228,
   8, 113, 104]
/-- The fixed 10-byte salt `11223344555432167890` injected in `tmp_pss.py`. -/
def pss_salt : Bytes := [17, 34, 51, 68, 85, 84, 50, 22, 120, 144]

/-- The encoded message `tmp_pss.py` prints: the unique EMSA-PSS encoding of
the SHA-1 digest of `pss_message` with the fixed salt at 1023 embedded bits. -/
def pss_em : Bytes := [72, 225, 22, 156, 40, 202, 92, 158, 224, 183, 93, 70, 252, 74, 163, 151, 110, 67,
   235, 153, 221, 122, 209, 199, 105, 189, 199, 248, 67, 146, 65, 233, 126, 95, 107, 248,
   60, 246, 108, 121, 31, 83, 236, 81, 97, 137, 255, 42, 106, 148, 165, 165, 43, 26,
   64, 148, 31, 247, 21, 26, 18, 158, 182, 184, 129, 50, 79, 123, 9, 16, 89, 16,
   18, 104, 71, 81, 215, 206, 176, 76, 249, 26, 89, 18, 61, 151, 240, 207, 222, 151,
   133, 199, 75, 119, 133, 114, 64, 210, 148, 160, 224, 57, 21, 172, 126, 99, 118, 112,
   130, 206, 114, 151, 200, 211, 38, 181, 124, 110, 193, 37, 123, 5, 102, 159, 79, 185,
   237, 188]

/-- C8: EMSA-PSS encoding with SHA-1, the fixed injected 10-byte salt and
embedded-message bit length 1023, applied to the SHA-1 digest of the
script's message, deterministically produces the single fixed 128-byte
encoded message whose final byte is the trailer byte `0xBC`. -/
theorem emsa_pss_encode_kat :
    EMSA_PSS_encode (sha1 pss_message) 1023 pss_salt = some pss_em ∧
    pss_em.getLast? = some 188 ∧ pss_em.length = 128 := by
  refine ⟨by decide, by decide, by decide⟩

end TLS
